import Mathlib

/-!
# Verification of the Devr.AI orchestration substrate

Shallow embedding of the orchestration core of the Devr.AI backend:
the ReAct supervisor node (`app/agents/devrel/nodes/react_supervisor.py`),
the human-in-the-loop technical-support workflow
(`app/agents/devrel/workflows/technical_support.py`), the workflow handler
(`app/agents/devrel/nodes/handlers/technical_support.py`), the event bus
(`app/core/events/event_bus.py`), and a priority work queue modelled from
the design document (its implementation module is not part of the sources
at hand).

External effects (LLM calls, GitHub tool executions, sub-graph
invocations) are modelled by `Option` / `Except` parameters: `none` /
`.error` stands for the Python call raising an exception, a value stands
for a normal return.  Each graph node becomes a total Lean function from
the session state plus the effect outcomes to the partial state update the
Python function returns.
-/

/-! ## Data model: session state (`app/agents/state.py` record as used by
the embedded functions) -/

/-- One entry of `state.messages`: a `{role, content}` dict. -/
structure ChatMessage where
  role : String
  content : String
deriving Repr, DecidableEq

/-- The dict stored in `context["supervisor_decision"]`.  The ReAct
supervisor stores `{action, reasoning, thinking}`; `propose_action_node`
stores the LLM's JSON object `{action, args}`.  All keys are optional,
mirroring Python `dict.get`. -/
structure CtxDecision where
  action : Option String := none
  args : Option String := none
  reasoning : Option String := none
  thinking : Option String := none
deriving Repr, DecidableEq

/-- One entry of `context["tool_results"]` as built by `add_tool_result`.
The tool's result payload (a Python dict) is carried as an opaque string. -/
structure ToolEntry where
  tool : String
  result : String
  iteration : Nat
  timestamp : String
deriving Repr, DecidableEq

/-- The `task_result` dict produced by `execute_action_node`. -/
structure TaskResult where
  type : String
  status : String
  message : String
deriving Repr, DecidableEq

/-- The open `state.context` map, restricted to the keys the embedded code
reads or writes.  A `none` field is an absent key (`dict.get` default
applies). -/
structure Ctx where
  iteration_count : Option Nat := none
  tool_results : List ToolEntry := []
  supervisor_thinking : Option String := none
  supervisor_decision : Option CtxDecision := none
  last_action : Option String := none
  error : Option String := none
  completion_reason : Option String := none
  original_message : Option String := none
deriving Repr, DecidableEq

/-- The `AgentState` record (fields used by the embedded functions).
`current_task = none` is Python `None`. -/
structure AgentState where
  session_id : String
  user_id : String := ""
  platform : String := ""
  messages : List ChatMessage := []
  context : Ctx := {}
  current_task : Option String := none
  task_result : Option TaskResult := none
  tools_used : List String := []
  errors : List String := []
deriving Repr, DecidableEq

/-! ## ReAct supervisor (`react_supervisor.py`) -/

/-- `MAX_ITERATIONS` constant. -/
def MAX_ITERATIONS : Nat := 10

/-- `VALID_ACTIONS` constant, exactly as in the source (note: it does not
contain `technical_support`). -/
def VALID_ACTIONS : List String :=
  ["web_search", "faq_handler", "onboarding", "github_toolkit", "complete"]

/-- The closed list of ACT choices advertised by `REACT_SUPERVISOR_PROMPT`
(`prompts/react_prompt.py`, final format line:
`ACT: [Choose one: technical_support, web_search, faq_handler, onboarding,
github_toolkit, complete]`). -/
def PROMPT_ACT_CHOICES : List String :=
  ["technical_support", "web_search", "faq_handler", "onboarding",
   "github_toolkit", "complete"]

/-- The placeholder names of `REACT_SUPERVISOR_PROMPT`, in template order
(`prompts/react_prompt.py`; the template holds no other brace fields). -/
def PROMPT_PLACEHOLDERS : List String :=
  ["latest_message", "platform", "interaction_count", "iteration_count",
   "current_task", "conversation_history", "tool_results"]

/-- The keyword arguments the `REACT_SUPERVISOR_PROMPT.format(...)` call in
`react_supervisor_node` passes (note: `current_task` is not among them). -/
def FORMAT_KWARGS : List String :=
  ["latest_message", "platform", "interaction_count", "iteration_count",
   "conversation_history", "tool_results"]

/-- Python `template.format(**kwargs)` keyed-field resolution: raises
`KeyError` naming the first template placeholder not supplied as a keyword
argument; succeeds otherwise (the produced text itself is irrelevant here —
only whether the call raises matters to the node's control flow). -/
def formatPrompt (placeholders kwargs : List String) : Except String Unit :=
  match placeholders.find? (fun p => ¬ kwargs.contains p) with
  | some missing => .error missing
  | none => .ok ()

/-- The decision dict built by `_parse_supervisor_decision`, initialised to
`{"action": "complete", "reasoning": "", "thinking": ""}`. -/
structure Decision where
  action : String
  reasoning : String
  thinking : String
deriving Repr, DecidableEq

/-! Python string primitives on `List Char` (`String.data`), written with
structural recursion so that concrete runs reduce inside the kernel. -/

/-- Python `str.strip()`. -/
def trimChars (l : List Char) : List Char :=
  ((l.dropWhile Char.isWhitespace).reverse.dropWhile Char.isWhitespace).reverse

/-- Python `str.split(sep)` for a one-character separator: keeps empty
parts, `"" → [""]`. -/
def splitChar (sep : Char) : List Char → List (List Char)
  | [] => [[]]
  | c :: cs =>
    let r := splitChar sep cs
    if c = sep then [] :: r
    else
      match r with
      | [] => [[c]]
      | h :: t => (c :: h) :: t

/-- `startsWithChars s pat`: Python `s.startswith(pat)`. -/
def startsWithChars : List Char → List Char → Bool
  | _, [] => true
  | [], _ :: _ => false
  | c :: cs, p :: ps => c = p && startsWithChars cs ps

/-- Worker for `removeAll`; the fuel (the string's length) only keeps the
recursion structural, every occurrence of a non-empty pattern consumes at
least one character. -/
def removeAllAux (pat : List Char) : Nat → List Char → List Char
  | 0, s => s
  | _ + 1, [] => []
  | fuel + 1, c :: cs =>
    if startsWithChars (c :: cs) pat ∧ pat ≠ [] then
      removeAllAux pat fuel ((c :: cs).drop pat.length)
    else c :: removeAllAux pat fuel cs

/-- Python `s.replace(pat, "")`: every occurrence of `pat` is removed,
scanning left to right. -/
def removeAll (s pat : List Char) : List Char :=
  removeAllAux pat s.length s

/-- Python `str.lower()` (core `Char.toLower` handles exactly ASCII; every
registry candidate is ASCII, so registry membership agrees with Python). -/
def lowerChars (l : List Char) : List Char :=
  l.map Char.toLower

/-- Python `" ".join(parts)`. -/
def joinSpace : List (List Char) → List Char
  | [] => []
  | [x] => x
  | x :: y :: xs => x ++ ' ' :: joinSpace (y :: xs)

/-- `containsChars s pat`: Python `pat in s`. -/
def containsChars (s pat : List Char) : Bool :=
  match s with
  | [] => pat = []
  | _ :: cs => startsWithChars s pat || containsChars cs pat

/-- Which multi-line section the parser is currently buffering
(Python `current_section`, a key of the decision dict). -/
inductive ParseSection where
  | thinking
  | reasoning
deriving Repr, DecidableEq

/-- Loop state of `_parse_supervisor_decision`:
`(decision, current_section, content_buffer)`. -/
structure ParseState where
  decision : Decision
  currentSection : Option ParseSection
  buffer : List (List Char)
deriving Repr, DecidableEq

/-- `if current_section and content_buffer: decision[current_section] =
" ".join(content_buffer)`. -/
def flushBuffer (st : ParseState) : Decision :=
  match st.currentSection with
  | none => st.decision
  | some sec =>
    if st.buffer = [] then st.decision
    else
      match sec with
      | .thinking => { st.decision with thinking := String.mk (joinSpace st.buffer) }
      | .reasoning => { st.decision with reasoning := String.mk (joinSpace st.buffer) }

/-- Body of the `for line in response.strip().split('\n')` loop. -/
def processLine (st : ParseState) (rawLine : List Char) : ParseState :=
  let line := trimChars rawLine
  if line = [] then st
  else if startsWithChars line "THINK:".data then
    { decision := flushBuffer st, currentSection := some .thinking,
      buffer := [trimChars (removeAll line "THINK:".data)] }
  else if startsWithChars line "ACT:".data then
    let d := flushBuffer st
    let action := String.mk (lowerChars (trimChars (removeAll line "ACT:".data)))
    let d :=
      if VALID_ACTIONS.contains action then { d with action := action }
      else { d with action := "complete" }
    { decision := d, currentSection := none, buffer := [] }
  else if startsWithChars line "REASON:".data then
    { decision := flushBuffer st, currentSection := some .reasoning,
      buffer := [trimChars (removeAll line "REASON:".data)] }
  else
    match st.currentSection with
    | some _ => { st with buffer := st.buffer ++ [line] }
    | none => st

/-- `_parse_supervisor_decision` (the leading underscore is dropped; Lean
reserves it).  The Python body's own `try/except` never fires — nothing in
it raises — so it is not modelled. -/
def parse_supervisor_decision (response : String) : Decision :=
  let init : Decision := { action := "complete", reasoning := "", thinking := "" }
  if trimChars response.data = [] then init
  else
    let st := (splitChar '\n' (trimChars response.data)).foldl processLine
      { decision := init, currentSection := none, buffer := [] }
    let d := flushBuffer st
    if VALID_ACTIONS.contains d.action then d
    else { d with action := "complete" }

/-- `_validate_state`: the state object always exists and always has a
`context` attribute in this embedding, so validity reduces to the
`session_id` truthiness check. -/
def validate_state (s : AgentState) : Bool :=
  s.session_id ≠ ""

/-- `_create_error_response`: the `(context, current_task)` pair returned. -/
def create_error_response (s : AgentState) (error_message : String) :
    Ctx × String :=
  ({ s.context with
      supervisor_decision := some
        { action := some "complete", reasoning := some error_message,
          thinking := some "Error occurred" },
      error := some error_message },
   "supervisor_decided_complete")

/-- `_create_completion_response`: the `(context, current_task)` pair
returned. -/
def create_completion_response (s : AgentState) (reason : String) :
    Ctx × String :=
  ({ s.context with
      supervisor_decision := some
        { action := some "complete", reasoning := some reason,
          thinking := some "Completing task" },
      completion_reason := some reason },
   "supervisor_decided_complete")

/-- Result of one run of `react_supervisor_node`: the returned partial
state update, plus the observation whether `llm.ainvoke` was reached on
that control path. -/
structure SupervisorOutcome where
  context : Ctx
  current_task : String
  llmCalled : Bool
deriving Repr, DecidableEq

/-- `react_supervisor_node`.  After the validity and cap checks the body
builds the prompt with `REACT_SUPERVISOR_PROMPT.format(...)`; that call
raises `KeyError` into the node's `except` whenever the template names a
placeholder the call does not pass (Python `str(KeyError(k))` is the key
in quotes), before `llm.ainvoke` is ever reached.  The LLM call itself is
the parameter `llm`: `some content` is a normal reply with that text,
`none` is `llm.ainvoke` raising (also caught by the `except`, which yields
`_create_error_response` — note it does not touch `iteration_count`).
The `_get_latest_message` / `_get_conversation_history` helpers run before
the format call but catch their own exceptions, so they cannot raise. -/
def react_supervisor_node (state : AgentState) (llm : Option String) :
    SupervisorOutcome :=
  if ¬ validate_state state then
    let r := create_error_response state "Invalid state"
    { context := r.1, current_task := r.2, llmCalled := false }
  else
    let iteration_count := state.context.iteration_count.getD 0
    if iteration_count ≥ MAX_ITERATIONS then
      let r := create_completion_response state "Maximum iterations reached"
      { context := r.1, current_task := r.2, llmCalled := false }
    else
      match formatPrompt PROMPT_PLACEHOLDERS FORMAT_KWARGS with
      | .error missing =>
        let r := create_error_response state
          ("Supervisor error: \x27" ++ missing ++ "\x27")
        { context := r.1, current_task := r.2, llmCalled := false }
      | .ok _ =>
        match llm with
        | none =>
          let r := create_error_response state "Supervisor error"
          { context := r.1, current_task := r.2, llmCalled := true }
        | some content =>
          let decision := parse_supervisor_decision content
          { context :=
              { state.context with
                supervisor_thinking := some content,
                supervisor_decision := some
                  { action := some decision.action,
                    reasoning := some decision.reasoning,
                    thinking := some decision.thinking },
                iteration_count := some (iteration_count + 1),
                last_action := some decision.action },
            current_task := "supervisor_decided_" ++ decision.action,
            llmCalled := true }

/-- Python `l[-n:]`. -/
def lastN (n : Nat) (l : List α) : List α :=
  l.drop (l.length - n)

/-- The partial state update returned by `add_tool_result`.  A key the
Python dict omits leaves the state field unchanged, so the embedding
carries the old value there. -/
structure ToolResultUpdate where
  context : Ctx
  tools_used : List String
  current_task : Option String
deriving Repr, DecidableEq

/-- The `tool_entry` dict built by `add_tool_result` (its `timestamp` is
`json.dumps` of the iteration). -/
def mkToolEntry (s : AgentState) (tool_name : String) (result : String) :
    ToolEntry :=
  { tool := tool_name, result := result,
    iteration := s.context.iteration_count.getD 0,
    timestamp := "\x7b\"iteration\": " ++
      toString (s.context.iteration_count.getD 0) ++ "\x7d" }

/-- `add_tool_result`.  The `isinstance(result, dict)` coercion is
invisible here (the payload is already a single value); nothing in the
body raises, so the `except` branch is dead. -/
def add_tool_result (state : AgentState) (tool_name : String)
    (result : String) : ToolResultUpdate :=
  if ¬ validate_state state then
    { context := state.context, tools_used := state.tools_used,
      current_task := state.current_task }
  else
    let tool_results := state.context.tool_results ++
      [mkToolEntry state tool_name result]
    let tool_results :=
      if tool_results.length > 20 then lastN 20 tool_results
      else tool_results
    { context := { state.context with tool_results := tool_results },
      tools_used := state.tools_used ++ [tool_name],
      current_task := some ("completed_" ++ tool_name) }

/-! ## Confirmation workflow (`workflows/technical_support.py`) -/

/-- Partial state update returned by the HIL workflow nodes.  An `Option`
field set to `none` means the Python dict carries the key with value
`None`; a field wrapped in a further `Option` distinguishes "key absent"
where a node omits keys. All three nodes embedded here always return the
keys shown, except that only `propose_action_node`'s success branch
returns `context`. -/
structure HilNodeUpdate where
  hil_message : Option String
  current_task : Option String
  final_response : Option String
  context : Option Ctx := none
deriving Repr, DecidableEq

/-- `clarify_context_node`. -/
def clarify_context_node (_state : AgentState) : HilNodeUpdate :=
  let hil_message :=
    "I can help with that. To start, are you working in a specific repository, like \x27AOSSIE-Org/Devr.AI\x27?"
  { hil_message := some hil_message,
    current_task := some "awaiting_context",
    final_response := some hil_message }

/-- The JSON object `{action, args}` the propose-step LLM chain parses
(missing keys are `none`, mirroring `dict.get`). -/
structure ProposedAction where
  action : Option String := none
  args : Option String := none
deriving Repr, DecidableEq

/-- `propose_action_node`.  The `chain.invoke` LLM call is the parameter:
`some pa` is a parsed JSON reply, `none` is the chain raising (caught by
the node's `except`). -/
def propose_action_node (state : AgentState) (llm : Option ProposedAction) :
    HilNodeUpdate :=
  match llm with
  | some proposed_action =>
    let tool_input := proposed_action.args.getD "run an investigation"
    let hil_message :=
      "Okay, based on that, I plan to investigate the following: \x27" ++
      tool_input ++ "\x27. Does that sound like the right first step?"
    { hil_message := some hil_message,
      current_task := some "awaiting_action_approval",
      final_response := some hil_message,
      context := some
        { state.context with
          supervisor_decision := some
            { action := proposed_action.action, args := proposed_action.args } } }
  | none =>
    { hil_message := some
        "I\x27m having trouble deciding the next step. Can you please rephrase your problem?",
      current_task := some "awaiting_context",
      final_response := some
        "I\x27m having trouble deciding the next step. Can you please rephrase your problem?" }

/-- Result of `execute_action_node`: the returned partial update plus the
observation whether the GitHub tool chain was actually invoked. -/
structure ExecuteOutcome where
  task_result : TaskResult
  current_task : String
  toolRan : Bool
deriving Repr, DecidableEq

/-- `execute_action_node`.  The tool chain invocation is the parameter
`toolkit`: `.error e` is `github_chain.ainvoke` raising an exception whose
text is `e`; `.ok (some out)` is a result dict with an `output` key;
`.ok none` is a result dict without one.  The node's guard re-raises
`No valid action was approved by the user.` into its own `except`. -/
def execute_action_node (state : AgentState)
    (toolkit : Except String (Option String)) : ExecuteOutcome :=
  let sd := state.context.supervisor_decision
  if sd = none ∨ sd.bind (·.action) ≠ some "github_toolkit" then
    { task_result :=
        { type := "github_toolkit", status := "error",
          message := "Sorry, I ran into an error trying to run that tool: No valid action was approved by the user." },
      current_task := "action_executed", toolRan := false }
  else
    match toolkit with
    | .error e =>
      { task_result :=
          { type := "github_toolkit", status := "error",
            message := "Sorry, I ran into an error trying to run that tool: " ++ e },
        current_task := "action_executed", toolRan := true }
    | .ok out =>
      { task_result :=
          { type := "github_toolkit", status := "success",
            message := out.getD "Tool executed but provided no output." },
        current_task := "action_executed", toolRan := true }

/-- `resume_router`: picks the edge label from `state.current_task`
(`None` compares unequal to every string). -/
def resume_router (state : AgentState) : String :=
  let task := state.current_task
  if task = some "awaiting_context" then "propose_action"
  else if task = some "awaiting_action_approval" then "execute_action"
  else if task = some "awaiting_option_choice" then "propose_action_loop"
  else "__end__"

/-- The node reached for `END` in the graph wiring (the framework's `END`
sentinel is the string `"__end__"`). -/
def END_NODE : String := "__end__"

/-- The conditional-edge mapping installed on `wait_for_user`
(`workflow.add_conditional_edges(... \x7b"propose_action": "propose_action",
"execute_action": "execute_action", "propose_action_loop":
"propose_action", "__end__": END\x7d)`). -/
def resume_edge_target (label : String) : String :=
  if label = "propose_action" then "propose_action"
  else if label = "execute_action" then "execute_action"
  else if label = "propose_action_loop" then "propose_action"
  else if label = "__end__" then END_NODE
  else label

/-- The unconditional edges of the compiled workflow graph
(`workflow.add_edge` calls). -/
def graph_edges : List (String × String) :=
  [("clarify_context", "pause_here"),
   ("pause_here", "wait_for_user"),
   ("propose_action", "pause_here"),
   ("execute_action", "present_options"),
   ("present_options", "pause_here")]

/-! ## Workflow handler (`nodes/handlers/technical_support.py`) -/

/-- `sub_graph_thread_id = f"<parent_thread_id>-hil"`. -/
def sub_thread_id (parent_thread_id : String) : String :=
  parent_thread_id ++ "-hil"

/-- What the handler reads off the finished/paused sub-graph invocation:
the final state's `hil_message` and `final_response`. -/
structure HilResult where
  hil_message : Option String
  final_response : Option String
deriving Repr, DecidableEq

/-- Partial state update returned by `handle_technical_support_node`
(fields the dict omits carry the old state value), plus the observation
whether the sub-graph checkpoint was deleted. -/
structure HandlerUpdate where
  final_response : Option String
  hil_message : Option String
  current_task : Option String
  errors : List String
  checkpointDeleted : Bool
deriving Repr, DecidableEq

/-- `handle_technical_support_node`.  `parent_thread_id` is
`config["configurable"]["thread_id"]` (`none` when absent — the node then
raises into its own `except`).  The sub-graph invocation is the parameter
`workflow_result`: `.error e` is `hil_workflow.ainvoke` raising an
exception with text `e` (also caught by the `except`), `.ok r` a normal
return.  Python truthiness of `result.get("hil_message")`: a non-empty
string. -/
def handle_technical_support_node (state : AgentState)
    (parent_thread_id : Option String)
    (workflow_result : Except String HilResult) : HandlerUpdate :=
  let caught : String → HandlerUpdate := fun e =>
    { final_response := none, hil_message := none,
      current_task := some "technical_support_error",
      errors := state.errors ++ ["Technical support error: " ++ e],
      checkpointDeleted := false }
  match parent_thread_id with
  | none => caught "Parent thread_id not found in config"
  | some _ =>
    if state.messages = [] then
      -- `return {}`: every field keeps its state value, nothing deleted.
      { final_response := none, hil_message := none,
        current_task := state.current_task, errors := state.errors,
        checkpointDeleted := false }
    else
      match workflow_result with
      | .error e => caught e
      | .ok result =>
        match result.hil_message with
        | some m =>
          if m ≠ "" then
            { final_response := result.final_response,
              hil_message := some m,
              current_task := state.current_task,
              errors := state.errors, checkpointDeleted := false }
          else
            { final_response :=
                some (result.final_response.getD "Technical support session complete."),
              hil_message := none,
              current_task := some "technical_support_complete",
              errors := state.errors, checkpointDeleted := true }
        | none =>
          { final_response :=
              some (result.final_response.getD "Technical support session complete."),
            hil_message := none,
            current_task := some "technical_support_complete",
            errors := state.errors, checkpointDeleted := true }

/-! ## Checkpoint store

Modelled from the spec: the checkpoint store itself (`get(key)`,
`put(key, checkpoint)`, `delete(key)`, §6 "External interfaces") is an
external collaborator whose implementation is not among the sources; only
its keying by the handler (`sub_thread_id`) is source code.  A store is a
partial map from keys to checkpoints. -/

/-- A persisted workflow checkpoint: node position plus state snapshot
(spec §3, `WorkflowCheckpoint`). -/
structure WorkflowCheckpoint where
  node_position : String
  snapshot : AgentState
deriving Repr, DecidableEq

/-- Modelled from the spec: the checkpoint store, a key→checkpoint map. -/
def CheckpointStore : Type :=
  String → Option WorkflowCheckpoint

/-- Modelled from the spec: `put(key, checkpoint)`. -/
def CheckpointStore.put (st : CheckpointStore) (key : String)
    (c : WorkflowCheckpoint) : CheckpointStore :=
  fun k => if k = key then some c else st k

/-- Modelled from the spec: `delete(key)`. -/
def CheckpointStore.del (st : CheckpointStore) (key : String) :
    CheckpointStore :=
  fun k => if k = key then none else st k

/-! ## Event bus (`app/core/events/event_bus.py`) -/

/-- An event as seen by `dispatch` (`BaseEvent`; the fields follow the
spec's data model §3, of which `dispatch` reads `id` and `event_type`). -/
structure BusEvent where
  id : String
  actor_id : String
  event_type : String
  platform : String
deriving Repr, DecidableEq

/-- The event bus over an abstract handler type `α`:
`handlers` is the `Dict[EventType, List[callable]]` as an association
list, `global_handlers` the list of global handlers. -/
structure EventBus (α : Type) where
  handlers : List (String × List α)
  global_handlers : List α

/-- Dict lookup: `self.handlers[event_type]` when
`event_type in self.handlers`. -/
def lookupHandlers (hs : List (String × List α)) (ty : String) :
    Option (List α) :=
  match hs.find? (fun p => p.1 = ty) with
  | some p => some p.2
  | none => none

/-- What a call to `dispatch` produces: its Python return value
(`none` — the function has no `return` statement, so a caller gets `None`
and has no result list to index) and the callbacks scheduled with
`asyncio.create_task`, globals first. -/
structure DispatchOutcome (α : Type) where
  returnValue : Option (List String)
  scheduled : List α

/-- `EventBus.dispatch`. -/
def EventBus.dispatch (bus : EventBus α) (event : BusEvent) :
    DispatchOutcome α :=
  { returnValue := none,
    scheduled :=
      bus.global_handlers ++
        (match lookupHandlers bus.handlers event.event_type with
         | some l => l
         | none => []) }

/-! ## Work queue

Modelled from the spec: the priority work queue (`AsyncQueueManager`,
`app.core.orchestration.queue_manager`) is imported by `main.py` and the
Discord integration but its module is not among the sources; the model
follows §4.1: `enqueue(task, priority)` adds to a priority-ordered
structure with strict priority ordering and FIFO within a priority tier,
and dequeue takes the highest-priority available task. -/

/-- Modelled from the spec: `QueuePriority` with HIGH before MEDIUM before
LOW. -/
inductive QueuePriority where
  | high
  | medium
  | low
deriving Repr, DecidableEq

/-- Rank used for ordering: smaller dequeues first. -/
def QueuePriority.rank : QueuePriority → Nat
  | .high => 0
  | .medium => 1
  | .low => 2

/-- Modelled from the spec: a queued task — priority, arrival number
(`enqueuedAt`), payload. -/
structure QueuedTask where
  priority : QueuePriority
  seq : Nat
  payload : String
deriving Repr, DecidableEq

/-- Dequeue order: strictly by priority rank, FIFO (arrival order) within
a tier. -/
def taskLE (a b : QueuedTask) : Bool :=
  a.priority.rank < b.priority.rank ∨
    (a.priority.rank = b.priority.rank ∧ a.seq ≤ b.seq)

/-- Modelled from the spec: queue state — pending tasks in arrival order,
plus the next arrival number. -/
structure WorkQueue where
  tasks : List QueuedTask
  nextSeq : Nat
deriving Repr, DecidableEq

/-- Modelled from the spec: the empty queue. -/
def WorkQueue.empty : WorkQueue :=
  { tasks := [], nextSeq := 0 }

/-- Modelled from the spec: `enqueue(task, priority)`. -/
def WorkQueue.enqueue (q : WorkQueue) (payload : String)
    (p : QueuePriority) : WorkQueue :=
  { tasks := q.tasks ++ [{ priority := p, seq := q.nextSeq, payload := payload }],
    nextSeq := q.nextSeq + 1 }

/-- The pending task minimal in `taskLE` (first such in arrival order). -/
def pickMin : List QueuedTask → Option QueuedTask
  | [] => none
  | t :: ts => some (ts.foldl (fun best x => if taskLE best x then best else x) t)

/-- Modelled from the spec: a worker pulls the highest-priority available
task (FIFO within the tier); the task leaves the queue. -/
def WorkQueue.dequeue (q : WorkQueue) : Option (QueuedTask × WorkQueue) :=
  match pickMin q.tasks with
  | none => none
  | some t =>
    some (t, { q with tasks := q.tasks.filter (fun x => x.seq ≠ t.seq) })

/-! ## Spec-side and derived definitions used by the theorems -/

/-- The resume routing as the specification states it: `awaiting_context`
leads to the propose node, `awaiting_action_approval` to the execute node,
`awaiting_option_choice` back to the propose node, anything else to the
terminal node. -/
def resume_routing_spec (current_task : Option String) : String :=
  if current_task = some "awaiting_context" then "propose_action"
  else if current_task = some "awaiting_action_approval" then "execute_action"
  else if current_task = some "awaiting_option_choice" then "propose_action"
  else END_NODE

/-- Dequeue up to `n` tasks in order (the order a single worker would pull
them). -/
def drain : Nat → WorkQueue → List QueuedTask
  | 0, _ => []
  | n + 1, q =>
    match q.dequeue with
    | none => []
    | some (t, q') => t :: drain n q'

/-! ## Theorems -/

/-- C1: for every session state whose context `iteration_count` is at
least `MAX_ITERATIONS` (= 10), `react_supervisor_node` returns a decision
with action `complete` without invoking the reasoning engine — both the
valid-state path (forced completion) and the invalid-state path return
before the LLM call. -/
theorem C1_iteration_cap_skips_llm (state : AgentState) (llm : Option String)
    (h : MAX_ITERATIONS ≤ state.context.iteration_count.getD 0) :
    (react_supervisor_node state llm).llmCalled = false ∧
    (react_supervisor_node state llm).context.supervisor_decision.bind
      CtxDecision.action = some "complete" := by
  unfold react_supervisor_node
  by_cases hv : validate_state state = true
  · simp [hv, h, create_completion_response]
  · simp [hv, create_error_response]

theorem C1_witness :
    (react_supervisor_node
        { session_id := "s", context := { iteration_count := some 10 } }
        (some "ACT: web_search")).llmCalled = false ∧
    (react_supervisor_node
        { session_id := "s", context := { iteration_count := some 10 } }
        (some "ACT: web_search")).context.supervisor_decision.bind
      CtxDecision.action = some "complete" :=
  C1_iteration_cap_skips_llm _ _ (by decide)

/-- C2: the claim's registry includes `technical_support`, and indeed the
prompt advertises it as an ACT choice, but `VALID_ACTIONS` omits it, so
the parser coerces `ACT: technical_support` to `complete` — the code
contradicts its own prompt (the human-in-the-loop workflow is unreachable
through the supervisor). -/
theorem C2_technical_support_coerced :
    (parse_supervisor_decision "ACT: technical_support").action = "complete" ∧
    "technical_support" ∈ PROMPT_ACT_CHOICES ∧
    "technical_support" ∉ VALID_ACTIONS := by decide

/-- C3: composed through the conditional-edge mapping of the workflow
graph, `resume_router` routes `awaiting_context` to `propose_action`,
`awaiting_action_approval` to `execute_action`, `awaiting_option_choice`
back to `propose_action`, and every other `current_task` value to the
terminal node — exactly the specification's table. -/
theorem C3_resume_routing (state : AgentState) :
    resume_edge_target (resume_router state) = resume_routing_spec state.current_task := by
  unfold resume_router resume_edge_target resume_routing_spec END_NODE
  by_cases h1 : state.current_task = some "awaiting_context" <;>
    by_cases h2 : state.current_task = some "awaiting_action_approval" <;>
      by_cases h3 : state.current_task = some "awaiting_option_choice" <;>
        simp [h1, h2, h3]

/-- C4 counterexample: an exception inside `propose_action_node` (the LLM
chain raising) is caught, but `current_task` is set to the ordinary resume
tag `awaiting_context` — not an error tag (no `error` occurs in it) — and
the graph edge from `propose_action` leads to the pause marker, so the
workflow pauses again instead of terminating. -/
theorem C4_counterexample :
    (propose_action_node { session_id := "s" } none).current_task = some "awaiting_context" ∧
    containsChars "awaiting_context".data "error".data = false ∧
    ("propose_action", "pause_here") ∈ graph_edges := by decide

/-- C4 amended: node-level exceptions inside the confirmation workflow are
caught, but only the handler layer uses an error tag: `propose_action_node`
falls back to a rephrase prompt with `current_task = awaiting_context`
(the workflow pauses again), `execute_action_node` records an error-status
task result with `current_task = action_executed` (the workflow continues),
and an exception escaping the sub-workflow is caught by
`handle_technical_support_node`, which records it and sets the error tag
`technical_support_error`. -/
theorem C4_amended_exception_handling (state : AgentState) (pid e : String)
    (hm : state.messages ≠ []) :
    (propose_action_node state none).current_task = some "awaiting_context" ∧
    (propose_action_node state none).hil_message =
      some "I\x27m having trouble deciding the next step. Can you please rephrase your problem?" ∧
    (execute_action_node state (.error e)).task_result.status = "error" ∧
    (execute_action_node state (.error e)).current_task = "action_executed" ∧
    (handle_technical_support_node state (some pid) (.error e)).current_task =
      some "technical_support_error" ∧
    (handle_technical_support_node state (some pid) (.error e)).errors =
      state.errors ++ ["Technical support error: " ++ e] := by
  refine ⟨rfl, rfl, ?_, ?_, ?_, ?_⟩
  · unfold execute_action_node
    by_cases h : state.context.supervisor_decision = none ∨
      state.context.supervisor_decision.bind CtxDecision.action ≠ some "github_toolkit"
    · simp [if_pos h]
    · simp [if_neg h]
  · unfold execute_action_node
    by_cases h : state.context.supervisor_decision = none ∨
      state.context.supervisor_decision.bind CtxDecision.action ≠ some "github_toolkit"
    · simp [if_pos h]
    · simp [if_neg h]
  · unfold handle_technical_support_node
    simp [hm]
  · unfold handle_technical_support_node
    simp [hm]

theorem C4_amended_witness :
    (propose_action_node
        { session_id := "s", messages := [{ role := "user", content := "hi" }] }
        none).current_task = some "awaiting_context" :=
  (C4_amended_exception_handling
    { session_id := "s", messages := [{ role := "user", content := "hi" }] }
    "t1" "boom" (by decide)).1

/-- C5: after an append via `add_tool_result` the tool-result list holds
at most 20 entries; the list equals the last 20 entries of the old list
plus the new entry, hence is a suffix of it (the most recent entries, in
insertion order, the oldest dropped first). -/
theorem C5_tool_results_capped (state : AgentState) (tool_name result : String)
    (hv : validate_state state = true) :
    (add_tool_result state tool_name result).context.tool_results.length ≤ 20 ∧
    (add_tool_result state tool_name result).context.tool_results =
      lastN 20 (state.context.tool_results ++ [mkToolEntry state tool_name result]) ∧
    (add_tool_result state tool_name result).context.tool_results <:+
      state.context.tool_results ++ [mkToolEntry state tool_name result] := by
  have key : (add_tool_result state tool_name result).context.tool_results =
      lastN 20 (state.context.tool_results ++ [mkToolEntry state tool_name result]) := by
    unfold add_tool_result
    simp only [hv, not_true_eq_false, reduceIte, Bool.not_eq_true]
    set l := state.context.tool_results ++ [mkToolEntry state tool_name result] with hl
    by_cases h : l.length > 20
    · simp [h]
    · have h20 : l.length - 20 = 0 := by omega
      simp [h, lastN, h20]
  refine ⟨?_, key, ?_⟩
  · rw [key]
    simp only [lastN, List.length_drop]
    omega
  · rw [key]
    exact List.drop_suffix _ _

theorem C5_witness :
    (add_tool_result { session_id := "s" } "web_search" "ok").context.tool_results.length ≤ 20 :=
  (C5_tool_results_capped { session_id := "s" } "web_search" "ok" (by decide)).1

/-- Helper for C6: appending the fixed suffix keeps distinct parent ids
distinct. -/
theorem sub_thread_id_inj {p1 p2 : String} (h : p1 ≠ p2) :
    sub_thread_id p1 ≠ sub_thread_id p2 := by
  intro he
  apply h
  have hd := congrArg String.data he
  simp only [sub_thread_id, String.data_append] at hd
  exact String.ext (List.append_cancel_right hd)

/-- C6: distinct parent session ids derive distinct sub-conversation
checkpoint keys (parent id plus the fixed `-hil` suffix), so storing or
deleting one parent's checkpoint leaves the other parent's stored entry
unchanged. -/
theorem C6_checkpoint_isolation (p1 p2 : String) (h : p1 ≠ p2) :
    sub_thread_id p1 ≠ sub_thread_id p2 ∧
    (∀ (store : CheckpointStore) (c : WorkflowCheckpoint),
      (store.put (sub_thread_id p1) c) (sub_thread_id p2) = store (sub_thread_id p2)) ∧
    (∀ store : CheckpointStore,
      (store.del (sub_thread_id p1)) (sub_thread_id p2) = store (sub_thread_id p2)) := by
  have hne := sub_thread_id_inj h
  refine ⟨hne, ?_, ?_⟩
  · intro store c
    unfold CheckpointStore.put
    rw [if_neg (fun hh => hne hh.symm)]
  · intro store
    unfold CheckpointStore.del
    rw [if_neg (fun hh => hne hh.symm)]

theorem C6_witness :
    sub_thread_id "a" ≠ sub_thread_id "b" :=
  (C6_checkpoint_isolation "a" "b" (by decide)).1

/-- Helper for C7: `taskLE` as a proposition on ranks and arrival
numbers. -/
theorem taskLE_iff (a b : QueuedTask) :
    taskLE a b = true ↔
      (a.priority.rank < b.priority.rank ∨
        (a.priority.rank = b.priority.rank ∧ a.seq ≤ b.seq)) := by
  simp [taskLE]

/-- Helper for C7: `taskLE` is reflexive. -/
theorem taskLE_refl (a : QueuedTask) : taskLE a a = true := by
  simp [taskLE]

/-- Helper for C7: `taskLE` is transitive. -/
theorem taskLE_trans {a b c : QueuedTask} (h1 : taskLE a b = true)
    (h2 : taskLE b c = true) : taskLE a c = true := by
  rw [taskLE_iff] at h1 h2 ⊢
  omega

/-- Helper for C7: `taskLE` is total. -/
theorem taskLE_total (a b : QueuedTask) : taskLE a b = true ∨ taskLE b a = true := by
  rw [taskLE_iff, taskLE_iff]
  omega

/-- Helper for C7: the fold inside `pickMin` yields a task `taskLE`-below
the start value and every list element. -/
theorem foldl_min_le (l : List QueuedTask) :
    ∀ a : QueuedTask,
      taskLE (l.foldl (fun best x => if taskLE best x then best else x) a) a = true ∧
      ∀ x ∈ l, taskLE (l.foldl (fun best x => if taskLE best x then best else x) a) x = true := by
  induction l with
  | nil =>
    intro a
    exact ⟨taskLE_refl a, by simp⟩
  | cons y ys ih =>
    intro a
    simp only [List.foldl_cons]
    by_cases hay : taskLE a y = true
    · rw [if_pos hay]
      obtain ⟨h1, h2⟩ := ih a
      refine ⟨h1, ?_⟩
      intro x hx
      rcases List.mem_cons.mp hx with hx | hx
      · subst hx
        exact taskLE_trans h1 hay
      · exact h2 x hx
    · rw [if_neg hay]
      obtain ⟨h1, h2⟩ := ih y
      have hya : taskLE y a = true := (taskLE_total a y).resolve_left hay
      refine ⟨taskLE_trans h1 hya, ?_⟩
      intro x hx
      rcases List.mem_cons.mp hx with hx | hx
      · subst hx
        exact h1
      · exact h2 x hx

/-- Helper for C7: the picked task is `taskLE`-minimal among the pending
tasks. -/
theorem pickMin_le {l : List QueuedTask} {t : QueuedTask}
    (h : pickMin l = some t) : ∀ x ∈ l, taskLE t x = true := by
  cases l with
  | nil => simp [pickMin] at h
  | cons y ys =>
    simp only [pickMin, Option.some.injEq] at h
    subst h
    intro x hx
    obtain ⟨h1, h2⟩ := foldl_min_le ys y
    rcases List.mem_cons.mp hx with hx | hx
    · subst hx
      exact h1
    · exact h2 x hx

/-- C7: every dequeued task has strictly smaller priority rank than, or
equal rank and no later arrival than, every task pending in the queue
(strict priority, FIFO within a tier); and enqueuing LOW, HIGH, MEDIUM
into the empty queue dequeues HIGH, MEDIUM, LOW. -/
theorem C7_priority_fifo :
    (∀ (q : WorkQueue) (t : QueuedTask) (q' : WorkQueue),
        q.dequeue = some (t, q') →
        ∀ x ∈ q.tasks,
          t.priority.rank < x.priority.rank ∨
            (t.priority.rank = x.priority.rank ∧ t.seq ≤ x.seq)) ∧
    (drain 3 (((WorkQueue.empty.enqueue "t1" .low).enqueue "t2" .high).enqueue
        "t3" .medium)).map QueuedTask.priority =
      [QueuePriority.high, QueuePriority.medium, QueuePriority.low] ∧
    (drain 3 (((WorkQueue.empty.enqueue "t1" .low).enqueue "t2" .high).enqueue
        "t3" .medium)).map QueuedTask.payload = ["t2", "t3", "t1"] := by
  refine ⟨?_, by decide, by decide⟩
  intro q t q' hdq x hx
  have hpick : pickMin q.tasks = some t := by
    unfold WorkQueue.dequeue at hdq
    cases hq : pickMin q.tasks with
    | none => rw [hq] at hdq; exact absurd hdq (by simp)
    | some m =>
      rw [hq] at hdq
      simp only [Option.some.injEq, Prod.mk.injEq] at hdq
      rw [← hdq.1]
  exact (taskLE_iff t x).mp (pickMin_le hpick x hx)

theorem C7_witness :
    (⟨QueuePriority.high, 1, "t2"⟩ : QueuedTask).priority.rank <
        (⟨QueuePriority.low, 0, "t1"⟩ : QueuedTask).priority.rank ∨
      ((⟨QueuePriority.high, 1, "t2"⟩ : QueuedTask).priority.rank =
          (⟨QueuePriority.low, 0, "t1"⟩ : QueuedTask).priority.rank ∧
        (⟨QueuePriority.high, 1, "t2"⟩ : QueuedTask).seq ≤
          (⟨QueuePriority.low, 0, "t1"⟩ : QueuedTask).seq) :=
  C7_priority_fifo.1
    (((WorkQueue.empty.enqueue "t1" .low).enqueue "t2" .high).enqueue "t3" .medium)
    ⟨.high, 1, "t2"⟩
    { tasks := [⟨.low, 0, "t1"⟩, ⟨.medium, 2, "t3"⟩], nextSeq := 3 }
    (by decide) ⟨.low, 0, "t1"⟩ (by decide)

/-- C8 counterexample: on a valid below-cap pass with a functioning
reasoning engine (it would return `ACT: complete`), `iteration_count`
stays at 3 instead of incrementing to 4 — the prompt-format step raises
`KeyError` for the unsupplied `current_task` placeholder before the engine
is invoked, and the error response leaves the count unchanged — refuting
the claim that every pass increments it by exactly 1. -/
theorem C8_counterexample :
    (react_supervisor_node
        { session_id := "s", context := { iteration_count := some 3 } }
        (some "ACT: complete")).context.iteration_count = some 3 ∧
    some (3 : Nat) ≠ some (3 + 1) := by decide

/-- C8 amended: no pass of the supervisor loop increments
`iteration_count`, whatever the reasoning engine would answer: the
invalid-state and at-cap responses leave it unchanged, and every valid
below-cap pass raises `KeyError` at the prompt-format step (the template
requires `current_task`, which the format call never passes) before
`llm.ainvoke` is reached, so the node returns the error response with
`iteration_count` unchanged — the increment sits in unreachable code and
the reasoning engine is never invoked. -/
theorem C8_amended_no_increment (state : AgentState) (llm : Option String) :
    (react_supervisor_node state llm).context.iteration_count =
      state.context.iteration_count ∧
    (react_supervisor_node state llm).llmCalled = false := by
  unfold react_supervisor_node
  have hfmt : formatPrompt PROMPT_PLACEHOLDERS FORMAT_KWARGS =
      Except.error "current_task" := by rfl
  by_cases hv : validate_state state = true
  · by_cases hc : state.context.iteration_count.getD 0 ≥ MAX_ITERATIONS
    · simp [hv, hc, create_completion_response]
    · simp [hv, hc, hfmt, create_error_response]
  · simp [hv, create_error_response]

/-- C9: dispatching an event whose type has zero registered handlers, with
no global handlers registered, schedules zero callbacks and returns no
handler-result list (the return value is `None`); the embedded `dispatch`
is a total function, so the call completes without raising. -/
theorem C9_dispatch_zero_handlers {α : Type} (bus : EventBus α) (event : BusEvent)
    (hg : bus.global_handlers = [])
    (hh : (lookupHandlers bus.handlers event.event_type).getD [] = []) :
    (bus.dispatch event).scheduled = [] ∧
    (bus.dispatch event).returnValue = none := by
  unfold EventBus.dispatch
  cases hcase : lookupHandlers bus.handlers event.event_type <;>
    simp_all

theorem C9_witness :
    (EventBus.dispatch (α := Nat) { handlers := [], global_handlers := [] }
        { id := "e1", actor_id := "u1", event_type := "message.created",
          platform := "discord" }).scheduled = [] ∧
    (EventBus.dispatch (α := Nat) { handlers := [], global_handlers := [] }
        { id := "e1", actor_id := "u1", event_type := "message.created",
          platform := "discord" }).returnValue = none :=
  C9_dispatch_zero_handlers _ _ rfl rfl

/-- C10: reaching `execute_action_node` without a recorded approved
proposal (`supervisor_decision` absent, or its action not
`github_toolkit`) runs no tool and returns an error-status `task_result`
with `current_task = action_executed` — the guard's raise is caught inside
the node rather than propagating. -/
theorem C10_execute_without_approval (state : AgentState)
    (toolkit : Except String (Option String))
    (h : state.context.supervisor_decision = none ∨
      state.context.supervisor_decision.bind CtxDecision.action ≠ some "github_toolkit") :
    (execute_action_node state toolkit).toolRan = false ∧
    (execute_action_node state toolkit).task_result.status = "error" ∧
    (execute_action_node state toolkit).current_task = "action_executed" := by
  unfold execute_action_node
  rcases h with h | h <;> simp [h]

theorem C10_witness :
    (execute_action_node { session_id := "s" } (.ok none)).toolRan = false ∧
    (execute_action_node { session_id := "s" } (.ok none)).task_result.status = "error" ∧
    (execute_action_node { session_id := "s" } (.ok none)).current_task = "action_executed" :=
  C10_execute_without_approval _ _ (Or.inl rfl)
